import Mathlib

/-!
Shallow embedding of the `zohoxide-crm` client library (src/client.rs,
src/client_error.rs, src/lib.rs).

The HTTP transport and the JSON (de)serializer are external collaborators of
the code; following the program structure, every fallible external step is an
explicit input (an "environment"): the transport either fails with an error
message or yields the raw body text, and each speculative `serde_json`
parse attempt is given by its outcome on that body.  `unwrap()` on a `None`
option is a Rust panic; operations therefore return a dedicated result type
with a `panics` outcome.  Strings are modelled at character granularity
(faithful for ASCII data; Rust slices bytes).
-/

namespace Zohoxide

/-- Default network timeout for API requests (src/client.rs line 10). -/
def DEFAULT_TIMEOUT : Nat := 30

/-- Default OAuth domain (src/client.rs line 11). -/
def DEFAULT_OAUTH_DOMAIN : String := "https://accounts.zoho.com"

/-- Default API domain (src/client.rs line 12). -/
def DEFAULT_API_DOMAIN : String := "https://www.zohoapis.com"

/-- Modelled from the spec: `TokenRecord` (module `token_record`, not among
the provided sources).  Wire format §6: access_token and api_domain are
nullable strings, plus informational fields (token type, expiry) that the
core logic does not consume. -/
structure TokenRecord where
  access_token : Option String
  api_domain : Option String
  token_type : String
  expires_in : Nat
  expires_in_sec : Nat
  deriving DecidableEq, Repr

/-- Modelled from the spec: the OAuth auth-error envelope
`\x7b"error": string\x7d` (module `response`, not among the provided
sources). -/
structure AuthErrorResponse where
  error : String
  deriving DecidableEq, Repr

/-- Modelled from the spec: the structured CRM error envelope with
`code`/`message`/`status`/`details` (module `response`, not among the
provided sources); `details` is a free-form key/value object. -/
structure ApiErrorResponse where
  code : String
  details : List (String × String)
  message : String
  status : String
  deriving DecidableEq, Repr

/-- Modelled from the spec: pagination metadata of the get-many envelope
(`more_records`, `per_page`, `count`, `page`). -/
structure PageInfo where
  more_records : Bool
  per_page : Nat
  count : Nat
  page : Nat
  deriving DecidableEq, Repr

/-- Modelled from the spec: single-record wrapper returned by get-one
(a `data` array). -/
structure ApiGetResponse (T : Type) where
  data : List T
  deriving DecidableEq, Repr

/-- Modelled from the spec: paginated wrapper returned by get-many. -/
structure ApiGetManyResponse (T : Type) where
  data : List T
  info : Option PageInfo
  deriving DecidableEq, Repr

/-- Modelled from the spec: the *Success* shape of a bulk-result entry's
`details` field — the created/updated record id plus audit metadata. -/
structure SuccessDetails where
  id : String
  audit : List (String × String)
  deriving DecidableEq, Repr

/-- Modelled from the spec: the untagged success/error union inside a
bulk-result entry's `details`; the names `Success`/`Error` are those used by
the tests in src/client.rs. -/
inductive ResponseDataItemDetails where
  | Success (details : SuccessDetails)
  | Error (details : List (String × String))
  deriving DecidableEq, Repr

/-- Modelled from the spec: one entry of a bulk-write response
(`code`/`message`/`status` plus tagged `details`). -/
structure ResponseDataItem where
  code : String
  details : ResponseDataItemDetails
  message : String
  status : String
  deriving DecidableEq, Repr

/-- Modelled from the spec: the bulk-write success/partial envelope
(a `data` array of entries). -/
structure ApiSuccessResponse where
  data : List ResponseDataItem
  deriving DecidableEq, Repr

/-- The error taxonomy of src/client_error.rs.  `General` also absorbs
transport-layer and serde errors through the `From` conversions there. -/
inductive ClientError where
  | General (msg : String)
  | UnexpectedResponseType (raw : String)
  | EmptyResponse
  | ApiError (response : ApiErrorResponse)
  deriving DecidableEq, Repr

/-- The session state of src/client.rs (struct `Client`).  The typed-builder
construction lets every optional field be preset to any value, including
`none` for `oauth_domain`/`api_domain` (the tests do exactly that); building
a record of this structure models that. -/
structure Client where
  client_id : String
  client_secret : String
  refresh_token : String
  access_token : Option String
  oauth_domain : Option String
  api_domain : Option String
  sandbox : Bool
  timeout : Nat
  deriving DecidableEq, Repr

/-- `Client::api_domain()` (src/client.rs lines 84-90): the sandbox flag
overrides the stored field with the fixed sandbox URL. -/
def Client.apiDomain (c : Client) : Option String :=
  if c.sandbox then some "https://crmsandbox.zoho.com" else c.api_domain

/-- `Client::abbreviated_access_token()` (src/client.rs lines 111-125).
The outer `Option` is the panic effect: Rust slices `access_token[0..9]`
and `reversed[0..4]`, which panic (out of range) when the token is shorter
than 9; `none` models that panic.  The suffix is computed as in the source:
reverse, take 4, reverse again. -/
def Client.abbreviated_access_token (c : Client) : Option (Option String) :=
  match c.access_token with
  | none => some none
  | some t =>
    if t.length < 9 then none
    else
      let front := t.take 9
      let back := String.mk ((t.data.reverse.take 4).reverse)
      some (some (front ++ ".." ++ back))

/-- Environment of one `get_new_token` call: the transport outcome (error
message or raw body), and the outcomes of the two speculative parses of that
body (`AuthErrorResponse`, then `TokenRecord`; the latter's failure carries
the serde error message). -/
structure TokenEnv where
  send : Except String String
  parseAuthError : Option AuthErrorResponse
  parseTokenRecord : Except String TokenRecord
  deriving Repr

/-- `Client::get_new_token()` (src/client.rs lines 135-162).  The URL
formatting unwraps `oauth_domain` (line 138), hence the `none` (panic)
outcome when that field is absent.  Transport failures become `General`
via `From<reqwest::Error>`; a parsed auth error returns `General` with its
message before the `TokenRecord` parse is consulted; a parsed `TokenRecord`
overwrites `access_token` and `api_domain`, and the final guard rejects a
token-less record with `General "No token received"`. -/
def Client.get_new_token (c : Client) (env : TokenEnv) :
    Option (Except ClientError TokenRecord × Client) :=
  match c.oauth_domain with
  | none => none
  | some _ =>
    match env.send with
    | .error msg => some (.error (.General msg), c)
    | .ok _ =>
      match env.parseAuthError with
      | some aer => some (.error (.General aer.error), c)
      | none =>
        match env.parseTokenRecord with
        | .error msg => some (.error (.General msg), c)
        | .ok tr =>
          let c1 : Client :=
            { c with access_token := tr.access_token, api_domain := tr.api_domain }
          match tr.access_token with
          | some _ => some (.ok tr, c1)
          | none => some (.error (.General "No token received"), c1)

/-- Observable calls an operation makes: one token refresh against the OAuth
endpoint, or one CRM request (method, URL, Authorization header value). -/
inductive Event where
  | refreshCall
  | crmCall (method : String) (url : String) (auth : String)
  deriving DecidableEq, Repr

/-- Outcome of one CRM operation: a Rust panic, or a result together with the
final session state and the trace of calls issued. -/
inductive RunResult (α : Type) where
  | panics
  | done (res : Except ClientError α) (state : Client) (events : List Event)

/-- The result of a non-panicking run, if any. -/
def RunResult.result : RunResult α → Option (Except ClientError α)
  | .panics => none
  | .done res _ _ => some res

/-- The final session state of a non-panicking run, if any. -/
def RunResult.state : RunResult α → Option Client
  | .panics => none
  | .done _ c _ => some c

/-- The trace of a run (empty for a panic, which observes nothing). -/
def RunResult.events : RunResult α → List Event
  | .panics => []
  | .done _ _ evs => evs

/-- Environment of one CRM request: the outcome of building the transport
client (`reqwest` builder, `some msg` = failure), the transport outcome
(error message or raw body; `send()?` and `text()?` both convert to
`General`), and the outcomes of the two speculative parses of the body
(`ApiErrorResponse`, then the operation's success shape `T`). -/
structure CrmEnv (T : Type) where
  buildErr : Option String
  send : Except String String
  parseApiError : Option ApiErrorResponse
  parseSuccess : Option T
  deriving Repr

/-- Body of `Client::get` after the token-ensure step (src/client.rs lines
210-238): unwrap the token (line 210), build the transport client (213-215),
format the URL unwrapping `api_domain()` (line 217), send, then classify the
body: structured API error first, then the success shape, then
UnexpectedResponseType for a non-empty body, else EmptyResponse. -/
def Client.get_rest {T : Type} (c : Client) (cenv : CrmEnv (ApiGetResponse T))
    (module recId : String) (evs : List Event) : RunResult (ApiGetResponse T) :=
  match c.access_token with
  | none => .panics
  | some token =>
    match cenv.buildErr with
    | some msg => .done (.error (.General msg)) c evs
    | none =>
      match c.apiDomain with
      | none => .panics
      | some dom =>
        let url := dom ++ "/crm/v2/" ++ module ++ "/" ++ recId
        let auth := "Zoho-oauthtoken " ++ token
        let evs1 := evs ++ [Event.crmCall "GET" url auth]
        match cenv.send with
        | .error msg => .done (.error (.General msg)) c evs1
        | .ok raw =>
          match cenv.parseApiError with
          | some er => .done (.error (.ApiError er)) c evs1
          | none =>
            match cenv.parseSuccess with
            | some d => .done (.ok d) c evs1
            | none =>
              if raw.isEmpty then .done (.error .EmptyResponse) c evs1
              else .done (.error (.UnexpectedResponseType raw)) c evs1

/-- `Client::get` (src/client.rs lines 200-239): ensure a token (refreshing
when absent, propagating a refresh failure as-is), then proceed as in
`get_rest`. -/
def Client.get {T : Type} (c : Client) (env : TokenEnv)
    (cenv : CrmEnv (ApiGetResponse T)) (module recId : String) :
    RunResult (ApiGetResponse T) :=
  match c.access_token with
  | some _ => c.get_rest cenv module recId []
  | none =>
    match c.get_new_token env with
    | none => .panics
    | some (.error e, c1) => .done (.error e) c1 [Event.refreshCall]
    | some (.ok _, c1) => c1.get_rest cenv module recId [Event.refreshCall]

/-- Body of `Client::get_many` after the token-ensure step (src/client.rs
lines 310-343): unwrap token and `api_domain()` (310-311), build the
transport client, format the URL appending the optional query string, send,
then classify exactly as in `get_rest`. -/
def Client.get_many_rest {T : Type} (c : Client)
    (cenv : CrmEnv (ApiGetManyResponse T)) (module : String)
    (params : Option String) (evs : List Event) :
    RunResult (ApiGetManyResponse T) :=
  match c.access_token with
  | none => .panics
  | some token =>
    match c.apiDomain with
    | none => .panics
    | some dom =>
      match cenv.buildErr with
      | some msg => .done (.error (.General msg)) c evs
      | none =>
        let url0 := dom ++ "/crm/v2/" ++ module
        let url := match params with
          | some p => url0 ++ "?" ++ p
          | none => url0
        let auth := "Zoho-oauthtoken " ++ token
        let evs1 := evs ++ [Event.crmCall "GET" url auth]
        match cenv.send with
        | .error msg => .done (.error (.General msg)) c evs1
        | .ok raw =>
          match cenv.parseApiError with
          | some er => .done (.error (.ApiError er)) c evs1
          | none =>
            match cenv.parseSuccess with
            | some d => .done (.ok d) c evs1
            | none =>
              if raw.isEmpty then .done (.error .EmptyResponse) c evs1
              else .done (.error (.UnexpectedResponseType raw)) c evs1

/-- `Client::get_many` (src/client.rs lines 300-344). -/
def Client.get_many {T : Type} (c : Client) (env : TokenEnv)
    (cenv : CrmEnv (ApiGetManyResponse T)) (module : String)
    (params : Option String) : RunResult (ApiGetManyResponse T) :=
  match c.access_token with
  | some _ => c.get_many_rest cenv module params []
  | none =>
    match c.get_new_token env with
    | none => .panics
    | some (.error e, c1) => .done (.error e) c1 [Event.refreshCall]
    | some (.ok _, c1) => c1.get_many_rest cenv module params [Event.refreshCall]

/-- Body of `Client::insert` after the token-ensure step (src/client.rs
lines 395-428): unwrap token and `api_domain()` (395-396), build the
transport client, POST the data wrapped in a top-level `data` field
(serialization errors surface through the transport outcome), then classify
exactly as in `get_rest`. -/
def Client.insert_rest {D : Type} (c : Client) (cenv : CrmEnv ApiSuccessResponse)
    (module : String) (_data : List D) (evs : List Event) :
    RunResult ApiSuccessResponse :=
  match c.access_token with
  | none => .panics
  | some token =>
    match c.apiDomain with
    | none => .panics
    | some dom =>
      match cenv.buildErr with
      | some msg => .done (.error (.General msg)) c evs
      | none =>
        let url := dom ++ "/crm/v2/" ++ module
        let auth := "Zoho-oauthtoken " ++ token
        let evs1 := evs ++ [Event.crmCall "POST" url auth]
        match cenv.send with
        | .error msg => .done (.error (.General msg)) c evs1
        | .ok raw =>
          match cenv.parseApiError with
          | some er => .done (.error (.ApiError er)) c evs1
          | none =>
            match cenv.parseSuccess with
            | some d => .done (.ok d) c evs1
            | none =>
              if raw.isEmpty then .done (.error .EmptyResponse) c evs1
              else .done (.error (.UnexpectedResponseType raw)) c evs1

/-- `Client::insert` (src/client.rs lines 382-429). -/
def Client.insert {D : Type} (c : Client) (env : TokenEnv)
    (cenv : CrmEnv ApiSuccessResponse) (module : String) (data : List D) :
    RunResult ApiSuccessResponse :=
  match c.access_token with
  | some _ => c.insert_rest cenv module data []
  | none =>
    match c.get_new_token env with
    | none => .panics
    | some (.error e, c1) => .done (.error e) c1 [Event.refreshCall]
    | some (.ok _, c1) => c1.insert_rest cenv module data [Event.refreshCall]

/-- Body of `Client::update_many` after the token-ensure step (src/client.rs
lines 481-515): same shape as `insert_rest` but the request is a PUT. -/
def Client.update_many_rest {D : Type} (c : Client)
    (cenv : CrmEnv ApiSuccessResponse) (module : String) (_data : List D)
    (evs : List Event) : RunResult ApiSuccessResponse :=
  match c.access_token with
  | none => .panics
  | some token =>
    match c.apiDomain with
    | none => .panics
    | some dom =>
      match cenv.buildErr with
      | some msg => .done (.error (.General msg)) c evs
      | none =>
        let url := dom ++ "/crm/v2/" ++ module
        let auth := "Zoho-oauthtoken " ++ token
        let evs1 := evs ++ [Event.crmCall "PUT" url auth]
        match cenv.send with
        | .error msg => .done (.error (.General msg)) c evs1
        | .ok raw =>
          match cenv.parseApiError with
          | some er => .done (.error (.ApiError er)) c evs1
          | none =>
            match cenv.parseSuccess with
            | some d => .done (.ok d) c evs1
            | none =>
              if raw.isEmpty then .done (.error .EmptyResponse) c evs1
              else .done (.error (.UnexpectedResponseType raw)) c evs1

/-- `Client::update_many` (src/client.rs lines 468-516). -/
def Client.update_many {D : Type} (c : Client) (env : TokenEnv)
    (cenv : CrmEnv ApiSuccessResponse) (module : String) (data : List D) :
    RunResult ApiSuccessResponse :=
  match c.access_token with
  | some _ => c.update_many_rest cenv module data []
  | none =>
    match c.get_new_token env with
    | none => .panics
    | some (.error e, c1) => .done (.error e) c1 [Event.refreshCall]
    | some (.ok _, c1) => c1.update_many_rest cenv module data [Event.refreshCall]

/-- The spec's ordered response classification (§4.2 step 4): structured API
error first, then the success shape, then UnexpectedResponseType with the
verbatim body when non-empty, else EmptyResponse. -/
def classify {α : Type} (raw : String) (pe : Option ApiErrorResponse)
    (ps : Option α) : Except ClientError α :=
  match pe with
  | some er => .error (.ApiError er)
  | none =>
    match ps with
    | some d => .ok d
    | none =>
      if raw.isEmpty then .error .EmptyResponse
      else .error (.UnexpectedResponseType raw)

/-! ## Concrete sessions and environments used by the witnesses -/

/-- The 70-character token of the doc example in src/client.rs. -/
def docToken : String :=
  "1000.ad8f97a9sd7f9a7sdf7a89s7df87a9s8.a77fd8a97fa89sd7f89a7sdf97a89df3"

/-- A session with a preset access token and the default domains. -/
def cPreset : Client :=
  { client_id := "id", client_secret := "secret", refresh_token := "refresh"
    access_token := some docToken
    oauth_domain := some DEFAULT_OAUTH_DOMAIN
    api_domain := some DEFAULT_API_DOMAIN
    sandbox := false, timeout := DEFAULT_TIMEOUT }

/-- A sandbox session whose stored api_domain is absent. -/
def cSandbox : Client :=
  { cPreset with sandbox := true, api_domain := none }

/-- A non-sandbox session whose stored api_domain is absent. -/
def cNoDomain : Client :=
  { cPreset with api_domain := none }

/-- A session with a three-character access token. -/
def cShortToken : Client :=
  { cPreset with access_token := some "abc" }

/-- A session with no preset access token. -/
def cNoToken : Client :=
  { cPreset with access_token := none }

/-- A session whose oauth_domain was preset to `None` via the builder. -/
def cNoOauth : Client :=
  { cPreset with access_token := none, oauth_domain := none }

/-! ## Theorems -/

/-- **C7** — For every session state: the `api_domain()` accessor returns the
fixed sandbox URL whenever the sandbox flag is true, regardless of the stored
api_domain field (including when the stored field is `None`), and returns the
stored api_domain field (which may be `None`) when the sandbox flag is
false. -/
theorem claim_C7 (c : Client) :
    (c.sandbox = true → c.apiDomain = some "https://crmsandbox.zoho.com") ∧
    (c.sandbox = false → c.apiDomain = c.api_domain) := by
  constructor <;> intro h <;> simp [Client.apiDomain, h]

/-- Witness for C7: the sandbox session (with stored api_domain `None`)
yields the fixed sandbox URL; the non-sandbox one yields its stored field. -/
theorem claim_C7_witness :
    cSandbox.apiDomain = some "https://crmsandbox.zoho.com" ∧
    cNoDomain.apiDomain = none :=
  ⟨(claim_C7 cSandbox).1 rfl, ((claim_C7 cNoDomain).2 rfl).trans rfl⟩

/-- Counterexample for C8: on the session whose token is the three-character
string `"abc"`, `abbreviated_access_token` panics (the byte slice
`access_token[0..9]` is out of range), modelled as `none`; it does not
return `Some` of anything, contradicting the claim's unconditional
"returns Some of the first 9 characters … and the last 4 characters". -/
theorem claim_C8_counterexample :
    cShortToken.abbreviated_access_token = none ∧
    ∀ s : String, cShortToken.abbreviated_access_token ≠ some (some s) := by
  refine ⟨by decide, ?_⟩
  intro s h
  rw [show cShortToken.abbreviated_access_token = none from by decide] at h
  exact Option.noConfusion h

/-- **C8 (amended)** — `abbreviated_access_token()` returns `None` when
`access_token` is `None`; when `access_token` is `Some t` **and `t` has at
least 9 characters**, it returns `Some` of the first 9 characters of `t` and
the last 4 characters of `t` joined by `".."` (in particular for the doc
token it returns `"1000.ad8f..9df3"`); for a shorter token the slice
`t[0..9]` panics instead of returning. -/
theorem claim_C8 (c : Client) :
    (c.access_token = none → c.abbreviated_access_token = some none) ∧
    (∀ t, c.access_token = some t → t.length < 9 →
      c.abbreviated_access_token = none) ∧
    (∀ t, c.access_token = some t → 9 ≤ t.length →
      c.abbreviated_access_token =
        some (some (t.take 9 ++ ".." ++
          String.mk (t.data.drop (t.data.length - 4))))) := by
  refine ⟨fun h => by simp [Client.abbreviated_access_token, h], ?_, ?_⟩
  · intro t ht hlt
    simp [Client.abbreviated_access_token, ht, hlt]
  · intro t ht hle
    have hrev : (t.data.reverse.take 4).reverse = t.data.drop (t.data.length - 4) := by
      rw [← List.rtake_eq_reverse_take_reverse, List.rtake]
    simp [Client.abbreviated_access_token, ht, Nat.not_lt.mpr hle, hrev]

set_option maxRecDepth 4000 in
/-- Witness for C8 (amended): the doc token abbreviates to
`"1000.ad8f..9df3"`, and the token-less session yields `None`. -/
theorem claim_C8_witness :
    cPreset.abbreviated_access_token = some (some "1000.ad8f..9df3") ∧
    cNoToken.abbreviated_access_token = some none := by
  constructor
  · exact ((claim_C8 cPreset).2.2 docToken rfl (by decide)).trans (by decide)
  · exact (claim_C8 cNoToken).1 rfl

/-- **C4** — In `get_new_token`, whenever the response body parses as a
TokenRecord, the session's `access_token` and `api_domain` are both
overwritten from the TokenRecord's fields (a `None` field resets the session
field to `None`); if the overwritten `access_token` is `None` the operation
fails with `General "No token received"` (session left overwritten), and if
it is `Some` the operation returns `Ok` with a copy of the TokenRecord. -/
theorem claim_C4 (c : Client) (env : TokenEnv) (od raw : String)
    (tr : TokenRecord) (h1 : c.oauth_domain = some od)
    (h2 : env.send = .ok raw) (h3 : env.parseAuthError = none)
    (h4 : env.parseTokenRecord = .ok tr) :
    (tr.access_token = none →
      c.get_new_token env =
        some (.error (.General "No token received"),
          { c with access_token := none, api_domain := tr.api_domain })) ∧
    (∀ t, tr.access_token = some t →
      c.get_new_token env =
        some (.ok tr,
          { c with access_token := some t, api_domain := tr.api_domain })) := by
  constructor
  · intro h5
    simp [Client.get_new_token, h1, h2, h3, h4, h5]
  · intro t h5
    simp [Client.get_new_token, h1, h2, h3, h4, h5]

/-- A token response carrying a token and an api domain. -/
def trFull : TokenRecord :=
  { access_token := some "9999.bbbb.aaaa", api_domain := some "https://www.zohoapis.com"
    token_type := "Bearer", expires_in := 3600000, expires_in_sec := 3600 }

/-- A token response with both nullable fields absent. -/
def trEmpty : TokenRecord :=
  { trFull with access_token := none, api_domain := none }

/-- Environment for a refresh whose body parses as `trFull`. -/
def envTokenOk : TokenEnv :=
  { send := .ok "\x7b\"access_token\":\"9999.bbbb.aaaa\",\"expires_in_sec\":3600,\"api_domain\":\"https://www.zohoapis.com\",\"token_type\":\"Bearer\",\"expires_in\":3600000\x7d"
    parseAuthError := none
    parseTokenRecord := .ok trFull }

/-- Environment for a refresh whose body parses as the token-less
`trEmpty`. -/
def envTokenMissing : TokenEnv :=
  { send := .ok "\x7b\"token_type\":\"Bearer\",\"expires_in\":3600000,\"expires_in_sec\":3600\x7d"
    parseAuthError := none
    parseTokenRecord := .ok trEmpty }

/-- Witness for C4: a token-less record resets both fields and fails with
"No token received"; a token-bearing record overwrites both fields and
returns the record. -/
theorem claim_C4_witness :
    cPreset.get_new_token envTokenMissing =
      some (.error (.General "No token received"),
        { cPreset with access_token := none, api_domain := none }) ∧
    cNoToken.get_new_token envTokenOk =
      some (.ok trFull,
        { cNoToken with access_token := some "9999.bbbb.aaaa",
                        api_domain := some "https://www.zohoapis.com" }) :=
  ⟨(claim_C4 cPreset envTokenMissing DEFAULT_OAUTH_DOMAIN _ trEmpty
      rfl rfl rfl rfl).1 rfl,
   (claim_C4 cNoToken envTokenOk DEFAULT_OAUTH_DOMAIN _ trFull
      rfl rfl rfl rfl).2 "9999.bbbb.aaaa" rfl⟩

/-- **C5** — In `get_new_token`, if the response body parses as the OAuth
auth-error shape, the operation fails with a `General` error whose message
is exactly that error string, and this check is performed before the
TokenRecord success parse (the conclusion holds for every value of the
TokenRecord parse outcome). -/
theorem claim_C5 (c : Client) (env : TokenEnv) (od raw msg : String)
    (h1 : c.oauth_domain = some od) (h2 : env.send = .ok raw)
    (h3 : env.parseAuthError = some ⟨msg⟩) :
    c.get_new_token env = some (.error (.General msg), c) := by
  simp [Client.get_new_token, h1, h2, h3]

/-- Environment for a refresh answered with the body
`\x7b"error":"invalid_token"\x7d`; the TokenRecord parse outcome is set to a
successful parse of a token-bearing record to exhibit that the auth-error
check wins. -/
def envAuthError : TokenEnv :=
  { send := .ok "\x7b\"error\":\"invalid_token\"\x7d"
    parseAuthError := some ⟨"invalid_token"⟩
    parseTokenRecord := .ok trFull }

/-- Witness for C5: body `\x7b"error":"invalid_token"\x7d` yields
`General "invalid_token"` even though the TokenRecord parse outcome in the
environment is a successful token-bearing parse. -/
theorem claim_C5_witness :
    cNoToken.get_new_token envAuthError =
      some (.error (.General "invalid_token"), cNoToken) :=
  claim_C5 cNoToken envAuthError DEFAULT_OAUTH_DOMAIN
    "\x7b\"error\":\"invalid_token\"\x7d" "invalid_token" rfl rfl rfl

/-- A successful refresh leaves a token in the session (the final guard of
`get_new_token` only returns `Ok` when the overwritten token is `Some`). -/
lemma get_new_token_ok_isSome (c : Client) (env : TokenEnv) (tr : TokenRecord)
    (c1 : Client) (h : c.get_new_token env = some (.ok tr, c1)) :
    c1.access_token.isSome = true := by
  unfold Client.get_new_token at h
  repeat' split at h
  all_goals simp_all
  all_goals obtain ⟨h1, h2⟩ := h
  all_goals subst h2
  all_goals rfl

/-- `get_rest` only returns `Ok` from the branch where the session token was
unwrapped to `Some`, and it never mutates the session. -/
lemma get_rest_ok_isSome {T : Type} (c : Client) (cenv : CrmEnv (ApiGetResponse T))
    (module recId : String) (evs : List Event) (d : ApiGetResponse T)
    (c1 : Client) (evs1 : List Event)
    (h : c.get_rest cenv module recId evs = .done (.ok d) c1 evs1) :
    c1.access_token.isSome = true := by
  unfold Client.get_rest at h
  repeat' split at h
  all_goals simp_all

/-- Same fact for `get_many_rest`. -/
lemma get_many_rest_ok_isSome {T : Type} (c : Client)
    (cenv : CrmEnv (ApiGetManyResponse T)) (module : String)
    (params : Option String) (evs : List Event) (d : ApiGetManyResponse T)
    (c1 : Client) (evs1 : List Event)
    (h : c.get_many_rest cenv module params evs = .done (.ok d) c1 evs1) :
    c1.access_token.isSome = true := by
  unfold Client.get_many_rest at h
  repeat' split at h
  all_goals simp_all

/-- Same fact for `insert_rest`. -/
lemma insert_rest_ok_isSome {D : Type} (c : Client)
    (cenv : CrmEnv ApiSuccessResponse) (module : String) (data : List D)
    (evs : List Event) (d : ApiSuccessResponse) (c1 : Client)
    (evs1 : List Event)
    (h : c.insert_rest cenv module data evs = .done (.ok d) c1 evs1) :
    c1.access_token.isSome = true := by
  unfold Client.insert_rest at h
  repeat' split at h
  all_goals simp_all

/-- Same fact for `update_many_rest`. -/
lemma update_many_rest_ok_isSome {D : Type} (c : Client)
    (cenv : CrmEnv ApiSuccessResponse) (module : String) (data : List D)
    (evs : List Event) (d : ApiSuccessResponse) (c1 : Client)
    (evs1 : List Event)
    (h : c.update_many_rest cenv module data evs = .done (.ok d) c1 evs1) :
    c1.access_token.isSome = true := by
  unfold Client.update_many_rest at h
  repeat' split at h
  all_goals simp_all

/-- **C3** — For every operation of the client (`get_new_token`, `get`,
`get_many`, `insert`, `update_many`) and every starting session state: if the
operation returns success (`Ok`), then the session's `access_token` is `Some`
afterwards. -/
theorem claim_C3 {T D : Type} (c : Client) (env : TokenEnv)
    (cg : CrmEnv (ApiGetResponse T)) (cm : CrmEnv (ApiGetManyResponse T))
    (ci cu : CrmEnv ApiSuccessResponse) (module recId : String)
    (params : Option String) (data : List D) :
    (∀ tr c1, c.get_new_token env = some (.ok tr, c1) →
      c1.access_token.isSome = true) ∧
    (∀ d c1 evs, c.get env cg module recId = .done (.ok d) c1 evs →
      c1.access_token.isSome = true) ∧
    (∀ d c1 evs, c.get_many env cm module params = .done (.ok d) c1 evs →
      c1.access_token.isSome = true) ∧
    (∀ d c1 evs, c.insert env ci module data = .done (.ok d) c1 evs →
      c1.access_token.isSome = true) ∧
    (∀ d c1 evs, c.update_many env cu module data = .done (.ok d) c1 evs →
      c1.access_token.isSome = true) := by
  refine ⟨fun tr c1 h => get_new_token_ok_isSome c env tr c1 h, ?_, ?_, ?_, ?_⟩
  · intro d c1 evs h
    unfold Client.get at h
    split at h
    · exact get_rest_ok_isSome _ _ _ _ _ _ _ _ h
    · split at h
      · exact absurd h (by simp)
      · exact absurd h (by simp)
      · exact get_rest_ok_isSome _ _ _ _ _ _ _ _ h
  · intro d c1 evs h
    unfold Client.get_many at h
    split at h
    · exact get_many_rest_ok_isSome _ _ _ _ _ _ _ _ h
    · split at h
      · exact absurd h (by simp)
      · exact absurd h (by simp)
      · exact get_many_rest_ok_isSome _ _ _ _ _ _ _ _ h
  · intro d c1 evs h
    unfold Client.insert at h
    split at h
    · exact insert_rest_ok_isSome _ _ _ _ _ _ _ _ h
    · split at h
      · exact absurd h (by simp)
      · exact absurd h (by simp)
      · exact insert_rest_ok_isSome _ _ _ _ _ _ _ _ h
  · intro d c1 evs h
    unfold Client.update_many at h
    split at h
    · exact update_many_rest_ok_isSome _ _ _ _ _ _ _ _ h
    · split at h
      · exact absurd h (by simp)
      · exact absurd h (by simp)
      · exact update_many_rest_ok_isSome _ _ _ _ _ _ _ _ h

/-- A CRM environment answering `get` with an empty body and no parses. -/
def cenvEmptyGet : CrmEnv (ApiGetResponse Unit) :=
  { buildErr := none, send := .ok "", parseApiError := none, parseSuccess := none }

/-- A CRM environment answering `get_many` with an empty body and no
parses. -/
def cenvEmptyMany : CrmEnv (ApiGetManyResponse Unit) :=
  { buildErr := none, send := .ok "", parseApiError := none, parseSuccess := none }

/-- A CRM environment answering a bulk write with an empty body and no
parses. -/
def cenvEmptyBulk : CrmEnv ApiSuccessResponse :=
  { buildErr := none, send := .ok "", parseApiError := none, parseSuccess := none }

/-- The session left behind by a successful refresh on `cNoToken` answered
by `envTokenOk`. -/
def cRefreshed : Client :=
  { cNoToken with access_token := some "9999.bbbb.aaaa"
                  api_domain := some "https://www.zohoapis.com" }

/-- Witness for C3: the session produced by a successful refresh on the
token-less session carries a token. -/
theorem claim_C3_witness :
    cRefreshed.access_token.isSome = true :=
  (claim_C3 (T := Unit) (D := Unit) cNoToken envTokenOk cenvEmptyGet
    cenvEmptyMany cenvEmptyBulk cenvEmptyBulk "Accounts" "1" none []).1 trFull _ rfl

/-- **C9 (implicit)** — The builder permits a session whose `oauth_domain` is
`None` (`Client` above can be built so), and on every such session
`get_new_token` panics (it unwraps the `None` option while building the token
URL) instead of returning an error; hence a CRM operation invoked on such a
session without a preset access token also panics. -/
theorem claim_C9 {T D : Type} (c : Client) (env : TokenEnv)
    (cg : CrmEnv (ApiGetResponse T)) (cm : CrmEnv (ApiGetManyResponse T))
    (ci cu : CrmEnv ApiSuccessResponse) (module recId : String)
    (params : Option String) (data : List D)
    (h : c.oauth_domain = none) :
    c.get_new_token env = none ∧
    (c.access_token = none →
      c.get env cg module recId = .panics ∧
      c.get_many env cm module params = .panics ∧
      c.insert env ci module data = .panics ∧
      c.update_many env cu module data = .panics) := by
  have hg : c.get_new_token env = none := by simp [Client.get_new_token, h]
  refine ⟨hg, fun h2 => ⟨?_, ?_, ?_, ?_⟩⟩ <;>
    simp [Client.get, Client.get_many, Client.insert, Client.update_many, h2, hg]

/-- Witness for C9: on the session built with `oauth_domain` preset to
`None` and no token, the refresh and a CRM operation both panic. -/
theorem claim_C9_witness :
    cNoOauth.get_new_token envTokenOk = none ∧
    cNoOauth.get (T := Unit) envTokenOk cenvEmptyGet "Accounts" "1" = .panics := by
  have h := claim_C9 (T := Unit) (D := Unit) cNoOauth envTokenOk cenvEmptyGet
    cenvEmptyMany cenvEmptyBulk cenvEmptyBulk "Accounts" "1" none [] rfl
  exact ⟨h.1, (h.2 rfl).1⟩

/-- **C10 (implicit)** — For every session with `sandbox` false, stored
`api_domain` `None`, and a preset access token, each of the four CRM
operations panics (it unwraps the `None` result of `api_domain()`) instead of
returning an error.  (For `get`, the transport-client build step precedes the
unwrap, so the benign assumption that the build succeeds is made.) -/
theorem claim_C10 {T D : Type} (c : Client) (env : TokenEnv)
    (cg : CrmEnv (ApiGetResponse T)) (cm : CrmEnv (ApiGetManyResponse T))
    (ci cu : CrmEnv ApiSuccessResponse) (module recId : String)
    (params : Option String) (data : List D) (tok : String)
    (h1 : c.sandbox = false) (h2 : c.api_domain = none)
    (h3 : c.access_token = some tok) (h4 : cg.buildErr = none) :
    c.get env cg module recId = .panics ∧
    c.get_many env cm module params = .panics ∧
    c.insert env ci module data = .panics ∧
    c.update_many env cu module data = .panics := by
  have hd : c.apiDomain = none := by simp [Client.apiDomain, h1, h2]
  refine ⟨?_, ?_, ?_, ?_⟩ <;>
    simp [Client.get, Client.get_many, Client.insert, Client.update_many,
      Client.get_rest, Client.get_many_rest, Client.insert_rest,
      Client.update_many_rest, h3, h4, hd]

/-- Witness for C10: the non-sandbox session with stored `api_domain` `None`
and a preset token panics on all four operations. -/
theorem claim_C10_witness :
    cNoDomain.get (T := Unit) envTokenOk cenvEmptyGet "Accounts" "1" = .panics ∧
    cNoDomain.get_many (T := Unit) envTokenOk cenvEmptyMany "Accounts" none = .panics ∧
    cNoDomain.insert (D := Unit) envTokenOk cenvEmptyBulk "Accounts" [] = .panics ∧
    cNoDomain.update_many (D := Unit) envTokenOk cenvEmptyBulk "Accounts" [] = .panics :=
  claim_C10 cNoDomain envTokenOk cenvEmptyGet cenvEmptyMany cenvEmptyBulk
    cenvEmptyBulk "Accounts" "1" none [] docToken rfl rfl rfl rfl

/-- After the token-ensure step, `get` classifies the body in the shared
priority order. -/
lemma get_rest_classify {T : Type} (c : Client) (cenv : CrmEnv (ApiGetResponse T))
    (module recId : String) (evs : List Event) (tok dom raw : String)
    (h1 : c.access_token = some tok) (h2 : c.apiDomain = some dom)
    (h3 : cenv.buildErr = none) (h4 : cenv.send = .ok raw) :
    (c.get_rest cenv module recId evs).result =
      some (classify raw cenv.parseApiError cenv.parseSuccess) := by
  rcases hpe : cenv.parseApiError with _ | er
  · rcases hps : cenv.parseSuccess with _ | d
    · cases hr : raw.isEmpty <;>
        simp [Client.get_rest, RunResult.result, classify, h1, h2, h3, h4, hpe, hps, hr]
    · simp [Client.get_rest, RunResult.result, classify, h1, h2, h3, h4, hpe, hps]
  · simp [Client.get_rest, RunResult.result, classify, h1, h2, h3, h4, hpe]

/-- Same classification fact for `get_many`. -/
lemma get_many_rest_classify {T : Type} (c : Client)
    (cenv : CrmEnv (ApiGetManyResponse T)) (module : String)
    (params : Option String) (evs : List Event) (tok dom raw : String)
    (h1 : c.access_token = some tok) (h2 : c.apiDomain = some dom)
    (h3 : cenv.buildErr = none) (h4 : cenv.send = .ok raw) :
    (c.get_many_rest cenv module params evs).result =
      some (classify raw cenv.parseApiError cenv.parseSuccess) := by
  rcases hpe : cenv.parseApiError with _ | er
  · rcases hps : cenv.parseSuccess with _ | d
    · cases hr : raw.isEmpty <;>
        simp [Client.get_many_rest, RunResult.result, classify, h1, h2, h3, h4, hpe, hps, hr]
    · simp [Client.get_many_rest, RunResult.result, classify, h1, h2, h3, h4, hpe, hps]
  · simp [Client.get_many_rest, RunResult.result, classify, h1, h2, h3, h4, hpe]

/-- Same classification fact for `insert`. -/
lemma insert_rest_classify {D : Type} (c : Client)
    (cenv : CrmEnv ApiSuccessResponse) (module : String) (data : List D)
    (evs : List Event) (tok dom raw : String)
    (h1 : c.access_token = some tok) (h2 : c.apiDomain = some dom)
    (h3 : cenv.buildErr = none) (h4 : cenv.send = .ok raw) :
    (c.insert_rest cenv module data evs).result =
      some (classify raw cenv.parseApiError cenv.parseSuccess) := by
  rcases hpe : cenv.parseApiError with _ | er
  · rcases hps : cenv.parseSuccess with _ | d
    · cases hr : raw.isEmpty <;>
        simp [Client.insert_rest, RunResult.result, classify, h1, h2, h3, h4, hpe, hps, hr]
    · simp [Client.insert_rest, RunResult.result, classify, h1, h2, h3, h4, hpe, hps]
  · simp [Client.insert_rest, RunResult.result, classify, h1, h2, h3, h4, hpe]

/-- Same classification fact for `update_many`. -/
lemma update_many_rest_classify {D : Type} (c : Client)
    (cenv : CrmEnv ApiSuccessResponse) (module : String) (data : List D)
    (evs : List Event) (tok dom raw : String)
    (h1 : c.access_token = some tok) (h2 : c.apiDomain = some dom)
    (h3 : cenv.buildErr = none) (h4 : cenv.send = .ok raw) :
    (c.update_many_rest cenv module data evs).result =
      some (classify raw cenv.parseApiError cenv.parseSuccess) := by
  rcases hpe : cenv.parseApiError with _ | er
  · rcases hps : cenv.parseSuccess with _ | d
    · cases hr : raw.isEmpty <;>
        simp [Client.update_many_rest, RunResult.result, classify, h1, h2, h3, h4, hpe, hps, hr]
    · simp [Client.update_many_rest, RunResult.result, classify, h1, h2, h3, h4, hpe, hps]
  · simp [Client.update_many_rest, RunResult.result, classify, h1, h2, h3, h4, hpe]

/-- **C1** — For every CRM operation (`get`, `get_many`, `insert`,
`update_many`) and every raw response body, classification follows the fixed
priority order `classify`: a body parsing as the structured API error shape
fails with `ApiError` carrying that structure, before the success shape is
consulted (the parse outcome of the success shape is arbitrary here);
otherwise a body parsing as the operation's success shape is returned;
otherwise a non-empty body fails with `UnexpectedResponseType` carrying the
raw text verbatim; otherwise the operation fails with `EmptyResponse`. -/
theorem claim_C1 {T D : Type} (c : Client) (env : TokenEnv)
    (cg : CrmEnv (ApiGetResponse T)) (cm : CrmEnv (ApiGetManyResponse T))
    (ci cu : CrmEnv ApiSuccessResponse) (module recId : String)
    (params : Option String) (data : List D) (tok dom : String)
    (rawG rawM rawI rawU : String)
    (h1 : c.access_token = some tok) (h2 : c.apiDomain = some dom)
    (hg1 : cg.buildErr = none) (hg2 : cg.send = .ok rawG)
    (hm1 : cm.buildErr = none) (hm2 : cm.send = .ok rawM)
    (hi1 : ci.buildErr = none) (hi2 : ci.send = .ok rawI)
    (hu1 : cu.buildErr = none) (hu2 : cu.send = .ok rawU) :
    (c.get env cg module recId).result =
      some (classify rawG cg.parseApiError cg.parseSuccess) ∧
    (c.get_many env cm module params).result =
      some (classify rawM cm.parseApiError cm.parseSuccess) ∧
    (c.insert env ci module data).result =
      some (classify rawI ci.parseApiError ci.parseSuccess) ∧
    (c.update_many env cu module data).result =
      some (classify rawU cu.parseApiError cu.parseSuccess) := by
  refine ⟨?_, ?_, ?_, ?_⟩
  · rw [show c.get env cg module recId = c.get_rest cg module recId [] from by
      simp [Client.get, h1]]
    exact get_rest_classify c cg module recId [] tok dom rawG h1 h2 hg1 hg2
  · rw [show c.get_many env cm module params = c.get_many_rest cm module params [] from by
      simp [Client.get_many, h1]]
    exact get_many_rest_classify c cm module params [] tok dom rawM h1 h2 hm1 hm2
  · rw [show c.insert env ci module data = c.insert_rest ci module data [] from by
      simp [Client.insert, h1]]
    exact insert_rest_classify c ci module data [] tok dom rawI h1 h2 hi1 hi2
  · rw [show c.update_many env cu module data = c.update_many_rest cu module data [] from by
      simp [Client.update_many, h1]]
    exact update_many_rest_classify c cu module data [] tok dom rawU h1 h2 hu1 hu2

/-- The CRM error envelope of the `get_regular_error` test in
src/client.rs. -/
def errInvalidUrl : ApiErrorResponse :=
  { code := "INVALID_URL_PATTERN", details := []
    message := "Please check if the URL trying to access is a correct one"
    status := "error" }

/-- The raw body corresponding to `errInvalidUrl`. -/
def rawErrBody : String :=
  "\x7b\"code\":\"INVALID_URL_PATTERN\",\"details\":\x7b\x7d,\"message\":\"Please check if the URL trying to access is a correct one\",\"status\":\"error\"\x7d"

/-- A `get` environment where the body parses both as the structured error
and (degenerately) as the success shape: classification must pick the
error. -/
def cenvErrGet : CrmEnv (ApiGetResponse Unit) :=
  { buildErr := none, send := .ok rawErrBody
    parseApiError := some errInvalidUrl
    parseSuccess := some ⟨[]⟩ }

/-- A bulk-write environment answered with the plain text
`invalid_client`, which parses as neither shape. -/
def cenvTextBulk : CrmEnv ApiSuccessResponse :=
  { buildErr := none, send := .ok "invalid_client"
    parseApiError := none, parseSuccess := none }

/-- A bulk-write response whose single entry carries a per-record error
(`status:"error"`, `Error`-tagged details) and no successful entry. -/
def respBulkErr : ApiSuccessResponse :=
  ⟨[{ code := "DUPLICATE_DATA"
      details := .Error [("id", "554023000000235011")]
      message := "duplicate data", status := "error" }]⟩

/-- The raw body corresponding to `respBulkErr`. -/
def rawBulkBody : String :=
  "\x7b\"data\":[\x7b\"code\":\"DUPLICATE_DATA\",\"details\":\x7b\"id\":\"554023000000235011\"\x7d,\"message\":\"duplicate data\",\"status\":\"error\"\x7d]\x7d"

/-- A bulk-write environment whose body parses as `respBulkErr`. -/
def cenvBulkOk : CrmEnv ApiSuccessResponse :=
  { buildErr := none, send := .ok rawBulkBody
    parseApiError := none, parseSuccess := some respBulkErr }

/-- Witness for C1, one branch of the priority order per operation: `get`
classifies a body parsing as both shapes as `ApiError`; `get_many` turns an
empty body into `EmptyResponse`; `insert` preserves the unrecognized text
`invalid_client` verbatim in `UnexpectedResponseType`; `update_many` returns
the parsed success envelope. -/
theorem claim_C1_witness :
    (cPreset.get (T := Unit) envTokenOk cenvErrGet "Accounts" "123").result =
      some (.error (.ApiError errInvalidUrl)) ∧
    (cPreset.get_many (T := Unit) envTokenOk cenvEmptyMany "Accounts" none).result =
      some (.error .EmptyResponse) ∧
    (cPreset.insert (D := Unit) envTokenOk cenvTextBulk "Accounts" []).result =
      some (.error (.UnexpectedResponseType "invalid_client")) ∧
    (cPreset.update_many (D := Unit) envTokenOk cenvBulkOk "Accounts" []).result =
      some (.ok respBulkErr) := by
  have h := claim_C1 cPreset envTokenOk cenvErrGet cenvEmptyMany cenvTextBulk
    cenvBulkOk "Accounts" "123" none ([] : List Unit) docToken DEFAULT_API_DOMAIN
    rawErrBody "" "invalid_client" rawBulkBody
    rfl rfl rfl rfl rfl rfl rfl rfl rfl rfl
  exact ⟨h.1.trans rfl, h.2.1.trans rfl, h.2.2.1.trans rfl, h.2.2.2.trans rfl⟩

/-- Any `done` outcome of `get_rest` carries the caller's event prefix
followed by at most one CRM call and no refresh. -/
lemma get_rest_events {T : Type} (c : Client) (cenv : CrmEnv (ApiGetResponse T))
    (module recId : String) (evs : List Event)
    (res : Except ClientError (ApiGetResponse T)) (c1 : Client)
    (evs1 : List Event)
    (h : c.get_rest cenv module recId evs = .done res c1 evs1) :
    evs1 = evs ∨ ∃ m u a, evs1 = evs ++ [Event.crmCall m u a] := by
  unfold Client.get_rest at h
  repeat' split at h
  all_goals first
    | exact RunResult.noConfusion h
    | (injection h with h1 h2 h3; subst h3; exact Or.inl rfl)
    | (injection h with h1 h2 h3; subst h3; exact Or.inr ⟨_, _, _, rfl⟩)

/-- Same event fact for `get_many_rest`. -/
lemma get_many_rest_events {T : Type} (c : Client)
    (cenv : CrmEnv (ApiGetManyResponse T)) (module : String)
    (params : Option String) (evs : List Event)
    (res : Except ClientError (ApiGetManyResponse T)) (c1 : Client)
    (evs1 : List Event)
    (h : c.get_many_rest cenv module params evs = .done res c1 evs1) :
    evs1 = evs ∨ ∃ m u a, evs1 = evs ++ [Event.crmCall m u a] := by
  unfold Client.get_many_rest at h
  repeat' split at h
  all_goals first
    | exact RunResult.noConfusion h
    | (injection h with h1 h2 h3; subst h3; exact Or.inl rfl)
    | (injection h with h1 h2 h3; subst h3; exact Or.inr ⟨_, _, _, rfl⟩)

/-- Same event fact for `insert_rest`. -/
lemma insert_rest_events {D : Type} (c : Client)
    (cenv : CrmEnv ApiSuccessResponse) (module : String) (data : List D)
    (evs : List Event) (res : Except ClientError ApiSuccessResponse)
    (c1 : Client) (evs1 : List Event)
    (h : c.insert_rest cenv module data evs = .done res c1 evs1) :
    evs1 = evs ∨ ∃ m u a, evs1 = evs ++ [Event.crmCall m u a] := by
  unfold Client.insert_rest at h
  repeat' split at h
  all_goals first
    | exact RunResult.noConfusion h
    | (injection h with h1 h2 h3; subst h3; exact Or.inl rfl)
    | (injection h with h1 h2 h3; subst h3; exact Or.inr ⟨_, _, _, rfl⟩)

/-- Same event fact for `update_many_rest`. -/
lemma update_many_rest_events {D : Type} (c : Client)
    (cenv : CrmEnv ApiSuccessResponse) (module : String) (data : List D)
    (evs : List Event) (res : Except ClientError ApiSuccessResponse)
    (c1 : Client) (evs1 : List Event)
    (h : c.update_many_rest cenv module data evs = .done res c1 evs1) :
    evs1 = evs ∨ ∃ m u a, evs1 = evs ++ [Event.crmCall m u a] := by
  unfold Client.update_many_rest at h
  repeat' split at h
  all_goals first
    | exact RunResult.noConfusion h
    | (injection h with h1 h2 h3; subst h3; exact Or.inl rfl)
    | (injection h with h1 h2 h3; subst h3; exact Or.inr ⟨_, _, _, rfl⟩)

/-- The refresh discipline of one CRM operation run: a refresh failure on a
token-less session is propagated as-is (no retry, no wrapping); a token-less
session sees exactly one refresh, as the first observable call; a session
with a preset token sees zero refresh calls. -/
def refreshDiscipline {α : Type} (c : Client) (env : TokenEnv)
    (r : RunResult α) : Prop :=
  (∀ e c1, c.access_token = none → c.get_new_token env = some (.error e, c1) →
    r = .done (.error e) c1 [Event.refreshCall]) ∧
  (c.access_token = none → r ≠ .panics →
    r.events.head? = some Event.refreshCall ∧
    r.events.count Event.refreshCall = 1) ∧
  (∀ tok, c.access_token = some tok →
    r.events.count Event.refreshCall = 0)

/-- Any operation of the common shape (token ensure, then a body that can
only append one CRM call to the trace) obeys the refresh discipline. -/
lemma refreshDiscipline_of {α : Type} (c : Client) (env : TokenEnv)
    (rest : Client → List Event → RunResult α)
    (hrest : ∀ c2 evs res st evs1, rest c2 evs = .done res st evs1 →
      evs1 = evs ∨ ∃ m u a, evs1 = evs ++ [Event.crmCall m u a])
    (run : RunResult α)
    (hrun : run = match c.access_token with
      | some _ => rest c []
      | none =>
        match c.get_new_token env with
        | none => .panics
        | some (.error e, c1) => .done (.error e) c1 [Event.refreshCall]
        | some (.ok _, c1) => rest c1 [Event.refreshCall]) :
    refreshDiscipline c env run := by
  refine ⟨?_, ?_, ?_⟩
  · intro e c1 hnone hg
    rw [hrun]
    simp [hnone, hg]
  · intro hnone hnp
    rw [hrun] at hnp ⊢
    simp only [hnone] at hnp ⊢
    rcases hg : c.get_new_token env with _ | ⟨e1 | tr, c1⟩
    · simp [hg] at hnp
    · simp [hg, RunResult.events]
    · simp only [hg] at hnp ⊢
      rcases hr : rest c1 [Event.refreshCall] with _ | ⟨res, st, evs1⟩
      · exact absurd hr hnp
      · rcases hrest c1 [Event.refreshCall] res st evs1 hr with h' | ⟨m, u, a, h'⟩ <;>
          subst h' <;> simp [hr, RunResult.events]
  · intro tok hsome
    rw [hrun]
    simp only [hsome]
    rcases hr : rest c [] with _ | ⟨res, st, evs1⟩
    · simp [hr, RunResult.events]
    · rcases hrest c [] res st evs1 hr with h' | ⟨m, u, a, h'⟩ <;>
        subst h' <;> simp [hr, RunResult.events]

/-- **C2** — For every CRM operation: if the session's `access_token` is
`None` when the operation is invoked, exactly one token refresh
(`get_new_token`) is performed, before the CRM request is issued (the trace
starts with the refresh call and contains no other), and a refresh failure
is propagated to the caller unchanged; if the session's `access_token` is
`Some`, zero refresh calls are performed. -/
theorem claim_C2 {T D : Type} (c : Client) (env : TokenEnv)
    (cg : CrmEnv (ApiGetResponse T)) (cm : CrmEnv (ApiGetManyResponse T))
    (ci cu : CrmEnv ApiSuccessResponse) (module recId : String)
    (params : Option String) (data : List D) :
    refreshDiscipline c env (c.get env cg module recId) ∧
    refreshDiscipline c env (c.get_many env cm module params) ∧
    refreshDiscipline c env (c.insert env ci module data) ∧
    refreshDiscipline c env (c.update_many env cu module data) := by
  refine ⟨?_, ?_, ?_, ?_⟩
  · exact refreshDiscipline_of c env
      (fun c2 evs => c2.get_rest cg module recId evs)
      (fun c2 evs res st evs1 h =>
        get_rest_events c2 cg module recId evs res st evs1 h) _ rfl
  · exact refreshDiscipline_of c env
      (fun c2 evs => c2.get_many_rest cm module params evs)
      (fun c2 evs res st evs1 h =>
        get_many_rest_events c2 cm module params evs res st evs1 h) _ rfl
  · exact refreshDiscipline_of c env
      (fun c2 evs => c2.insert_rest ci module data evs)
      (fun c2 evs res st evs1 h =>
        insert_rest_events c2 ci module data evs res st evs1 h) _ rfl
  · exact refreshDiscipline_of c env
      (fun c2 evs => c2.update_many_rest cu module data evs)
      (fun c2 evs res st evs1 h =>
        update_many_rest_events c2 cu module data evs res st evs1 h) _ rfl

/-- Witness for C2: a failed refresh on the token-less session is propagated
verbatim with exactly the refresh event; the preset-token session issues
zero refresh calls; the token-less session's trace starts with the
refresh. -/
theorem claim_C2_witness :
    cNoToken.get (T := Unit) envAuthError cenvEmptyGet "Accounts" "1" =
      .done (.error (.General "invalid_token")) cNoToken [Event.refreshCall] ∧
    (cPreset.get (T := Unit) envTokenOk cenvEmptyGet "Accounts" "1").events.count
      Event.refreshCall = 0 ∧
    (cNoToken.get (T := Unit) envTokenOk cenvEmptyGet "Accounts" "1").events.head? =
      some Event.refreshCall := by
  refine ⟨?_, ?_, ?_⟩
  · exact (claim_C2 (T := Unit) (D := Unit) cNoToken envAuthError cenvEmptyGet
      cenvEmptyMany cenvEmptyBulk cenvEmptyBulk "Accounts" "1" none []).1.1
      (.General "invalid_token") cNoToken rfl rfl
  · exact (claim_C2 (T := Unit) (D := Unit) cPreset envTokenOk cenvEmptyGet
      cenvEmptyMany cenvEmptyBulk cenvEmptyBulk "Accounts" "1" none []).1.2.2
      docToken rfl
  · exact ((claim_C2 (T := Unit) (D := Unit) cNoToken envTokenOk cenvEmptyGet
      cenvEmptyMany cenvEmptyBulk cenvEmptyBulk "Accounts" "1" none []).1.2.1
      rfl (fun h => RunResult.noConfusion h)).1

/-- **C6** — For `insert` and `update_many`: when the response body parses
as the bulk-result success envelope, the operation returns `Ok` even if
every entry in the `data` array carries a per-record error (status
`"error"`); per-record errors are never promoted to an operation-level
failure. -/
theorem claim_C6 {D : Type} (c : Client) (env : TokenEnv)
    (ci cu : CrmEnv ApiSuccessResponse) (module : String) (data : List D)
    (tok dom rawI rawU : String) (respI respU : ApiSuccessResponse)
    (h1 : c.access_token = some tok) (h2 : c.apiDomain = some dom)
    (hi1 : ci.buildErr = none) (hi2 : ci.send = .ok rawI)
    (hi3 : ci.parseApiError = none) (hi4 : ci.parseSuccess = some respI)
    (hu1 : cu.buildErr = none) (hu2 : cu.send = .ok rawU)
    (hu3 : cu.parseApiError = none) (hu4 : cu.parseSuccess = some respU)
    (_hallI : ∀ item ∈ respI.data, item.status = "error")
    (_hallU : ∀ item ∈ respU.data, item.status = "error") :
    (c.insert env ci module data).result = some (.ok respI) ∧
    (c.update_many env cu module data).result = some (.ok respU) := by
  constructor
  · rw [show c.insert env ci module data = c.insert_rest ci module data [] from by
      simp [Client.insert, h1]]
    rw [insert_rest_classify c ci module data [] tok dom rawI h1 h2 hi1 hi2]
    simp [classify, hi3, hi4]
  · rw [show c.update_many env cu module data = c.update_many_rest cu module data [] from by
      simp [Client.update_many, h1]]
    rw [update_many_rest_classify c cu module data [] tok dom rawU h1 h2 hu1 hu2]
    simp [classify, hu3, hu4]

/-- Witness for C6: the bulk response `respBulkErr`, whose only entry has
`status:"error"` and no successful entry, still yields `Ok` from both
`insert` and `update_many`. -/
theorem claim_C6_witness :
    (cPreset.insert (D := Unit) envTokenOk cenvBulkOk "Accounts" []).result =
      some (.ok respBulkErr) ∧
    (cPreset.update_many (D := Unit) envTokenOk cenvBulkOk "Accounts" []).result =
      some (.ok respBulkErr) :=
  claim_C6 cPreset envTokenOk cenvBulkOk cenvBulkOk "Accounts" ([] : List Unit)
    docToken DEFAULT_API_DOMAIN rawBulkBody rawBulkBody respBulkErr respBulkErr
    rfl rfl rfl rfl rfl rfl rfl rfl rfl rfl (by decide) (by decide)

end Zohoxide
